import Mathlib

/-!
Verification of the automation configuration validation pipeline
(`homeassistant/components/automation/config.py`).

The Python module is shallowly embedded below.  Python dictionaries become
association lists (`Dict`), Python exceptions become an explicit error type
(`PyErr`) threaded through `Except`, and logging becomes an explicit list of
`LogEvent` values returned next to the result.  External collaborators that
the module calls but that are not part of the sampled sources (the blueprint
store and the three section validators) are parameters collected in `Env`.
-/

set_option autoImplicit false

namespace AutomationConfigModel

/-- Values stored in a configuration mapping (the shapes YAML input takes). -/
inductive Val where
  | str : String → Val
  | bool : Bool → Val
  | nat : Nat → Val
  | list : List Val → Val
  | dict : List (String × Val) → Val

/-- A Python dictionary with string keys, modelled as an association list in
insertion order (Python dictionaries preserve insertion order). -/
abbrev Dict := List (String × Val)

/-- Lookup of a key in a dictionary, first binding wins (association lists
built below never hold duplicate keys). -/
def dictLookup : Dict → String → Option Val
  | [], _ => none
  | (k, v) :: rest, key => if k = key then some v else dictLookup rest key

/-- Python `key in d`. -/
def dictHasKey (d : Dict) (k : String) : Bool :=
  (dictLookup d k).isSome

/-- Python `d[key] = v`: replace the value in place when the key is present,
append the binding otherwise. -/
def dictInsert : Dict → String → Val → Dict
  | [], key, v => [(key, v)]
  | (k, w) :: rest, key, v =>
    if k = key then (k, v) :: rest else (k, w) :: dictInsert rest key v

/-- The Python exception values that can cross the functions of this module.
`volInvalid` is `voluptuous.Invalid`; `homeAssistantError` is
`HomeAssistantError`; `blueprintException` is `blueprint.BlueprintException`
(a subclass of `HomeAssistantError`); `undefinedSubstitution` is
`homeassistant.util.yaml.input.UndefinedSubstitution` (caught explicitly by
name in the source, and wrapped into a `HomeAssistantError` before being
re-raised, so it is modelled as not itself matching an
`except HomeAssistantError` clause); `nameError`, `valueError`, `typeError`
and `keyError` are the corresponding Python builtins. -/
inductive PyErr where
  | volInvalid : String → PyErr
  | homeAssistantError : String → PyErr
  | blueprintException : String → PyErr
  | undefinedSubstitution : String → PyErr
  | nameError : String → PyErr
  | valueError : String → PyErr
  | typeError : String → PyErr
  | keyError : String → PyErr

/-- The message payload of an exception (used when one exception wraps
another, as in `HomeAssistantError(err)`). -/
def errMsg : PyErr → String
  | .volInvalid s => s
  | .homeAssistantError s => s
  | .blueprintException s => s
  | .undefinedSubstitution s => s
  | .nameError s => s
  | .valueError s => s
  | .typeError s => s
  | .keyError s => s

/-- Membership of `except vol.Invalid`. -/
def isVolInvalid : PyErr → Bool
  | .volInvalid _ => true
  | _ => false

/-- Membership of `except (vol.Invalid, HomeAssistantError)`:
`blueprint.BlueprintException` subclasses `HomeAssistantError`. -/
def isInvalidOrHAError : PyErr → Bool
  | .volInvalid _ => true
  | .homeAssistantError _ => true
  | .blueprintException _ => true
  | _ => false

/-- Membership of `except blueprint.BlueprintException`. -/
def isBlueprintException : PyErr → Bool
  | .blueprintException _ => true
  | _ => false

/-- Membership of `except UndefinedSubstitution`. -/
def isUndefinedSubstitution : PyErr → Bool
  | .undefinedSubstitution _ => true
  | _ => false

/-- One call to `LOGGER.error`, with the data the source interpolates into
the message. -/
inductive LogEvent where
  | blueprintError (err : PyErr)
  | blueprintSubstitutionError (blueprintName : String) (err : PyErr)
  | invalidAutomation (automation_name problem : String) (err : PyErr)

/-- Result of `blueprints.async_inputs_from_config`: the diagnostic snapshot
`config_with_inputs`, the outcome of `async_substitute()`, and the fields the
substitution-failure log message reads. -/
structure BlueprintInputs where
  config_with_inputs : Dict
  substituteResult : Except PyErr Val
  blueprintName : String
  inputs : Val

/-- The external collaborators of the module: the blueprint store
(`blueprints.async_inputs_from_config`) and the three section validators
(`async_validate_trigger_config`, `async_validate_conditions_config`,
`script.async_validate_actions_config`).  Each may fail with any exception;
the call sites in the embedded code decide which exceptions they catch,
exactly as the source's `except` clauses do. -/
structure Env where
  inputsFromConfig : Val → Except PyErr BlueprintInputs
  validateTrigger : Val → Except PyErr Val
  validateConditions : Val → Except PyErr Val
  validateActions : Val → Except PyErr Val

def CONF_ID : String := "id"
def CONF_ALIAS : String := "alias"
def CONF_DESCRIPTION : String := "description"
def CONF_CONDITION : String := "condition"
def CONF_VARIABLES : String := "variables"
def CONF_ACTION : String := "action"
def CONF_TRIGGER : String := "trigger"
def CONF_TRIGGER_VARIABLES : String := "trigger_variables"
def CONF_TRACE : String := "trace"
def CONF_INITIAL_STATE : String := "initial_state"
def CONF_HIDE_ENTITY : String := "hide_entity"
def DOMAIN : String := "automation"

/-- Rendering of a value into a diagnostic message (f-string interpolation);
only used inside automation names, never inspected by any consumer. -/
def pyStr : Val → String
  | .str s => s
  | .bool b => if b then "True" else "False"
  | .nat n => toString n
  | .list _ => "[...]"
  | .dict _ => "{...}"

/-- The Python builtin `dict(v)`: succeeds on a mapping (returning a shallow
copy), raises `ValueError` on sequences whose elements are not key/value
pairs (the string and list cases below; the corner cases of an empty string
and of a list of pairs, which `dict` would accept, are not exercised by any
input considered here), and raises `TypeError` on non-iterable values. -/
def pyDict : Val → Except PyErr Dict
  | .dict d => .ok d
  | .str _ => .error (.valueError "dictionary update sequence element")
  | .list _ => .error (.valueError "dictionary update sequence element")
  | .bool _ => .error (.typeError "not iterable")
  | .nat _ => .error (.typeError "not iterable")

/-- Lines 83-87 of the source: `raw_config = None` followed by
`with suppress(ValueError): raw_config = dict(config)`.  A `ValueError` is
swallowed leaving `None`; any other exception propagates. -/
def tryDictOfVal (v : Val) : Except PyErr (Option Dict) :=
  match pyDict v with
  | .ok d => .ok (some d)
  | .error (.valueError _) => .ok none
  | .error e => .error e

/-- Modelled from the spec: `blueprint.is_blueprint_instance_config` is not
under the sampled sources; per the spec a Blueprint Reference is "identified
by the presence of a reserved use_blueprint key". -/
def is_blueprint_instance_config : Val → Bool
  | .dict d => dictHasKey d "use_blueprint"
  | _ => false

/-- Keys admitted by the structural schema: the keys declared in the source's
`PLATFORM_SCHEMA` plus the script-mode keys added by
`script.make_script_schema`. -/
def allowedKeys : List String :=
  [CONF_ID, CONF_ALIAS, CONF_DESCRIPTION, CONF_TRACE, CONF_INITIAL_STATE,
   CONF_HIDE_ENTITY, CONF_TRIGGER, CONF_CONDITION, CONF_VARIABLES,
   CONF_TRIGGER_VARIABLES, CONF_ACTION, "mode", "max", "max_exceeded"]

/-- A key, when present, holds a plain string. -/
def keyIsStrIfPresent (d : Dict) (k : String) : Bool :=
  match dictLookup d k with
  | none => true
  | some (.str _) => true
  | some _ => false

/-- A key, when present, holds a boolean. -/
def keyIsBoolIfPresent (d : Dict) (k : String) : Bool :=
  match dictLookup d k with
  | none => true
  | some (.bool _) => true
  | some _ => false

/-- The source's `PLATFORM_SCHEMA` (lines 54-73).  The voluptuous engine and
the referenced helper schemas (`cv.TRIGGER_SCHEMA`, `cv.SCRIPT_SCHEMA`,
`TRACE_CONFIG_SCHEMA`, `script.make_script_schema`) are outside the sampled
sources, so their behaviour is modelled from the spec (§4.2): the input must
be a mapping, unknown keys are rejected, `trigger` and `action` are required,
`id`/`alias`/`description` must be plain strings when present,
`initial_state`/`hide_entity` must be booleans when present, and the trace
options default to an empty configuration object.  The failure value is
always `vol.Invalid`. -/
def PLATFORM_SCHEMA (v : Val) : Except PyErr Dict :=
  match v with
  | .dict d =>
    if d.all (fun kv => allowedKeys.contains kv.1) then
      if dictHasKey d CONF_TRIGGER then
        if dictHasKey d CONF_ACTION then
          if keyIsStrIfPresent d CONF_ID && keyIsStrIfPresent d CONF_ALIAS &&
             keyIsStrIfPresent d CONF_DESCRIPTION &&
             keyIsBoolIfPresent d CONF_INITIAL_STATE &&
             keyIsBoolIfPresent d CONF_HIDE_ENTITY then
            .ok (if dictHasKey d CONF_TRACE then d
                 else dictInsert d CONF_TRACE (.dict []))
          else .error (.volInvalid "expected value of the declared type")
        else .error (.volInvalid "required key not provided @ data[action]")
      else .error (.volInvalid "required key not provided @ data[trigger]")
    else .error (.volInvalid "extra keys not allowed")
  | _ => .error (.volInvalid "expected a dictionary")

/-- The source's `_MINIMAL_PLATFORM_SCHEMA` (lines 44-51): `id`, `alias` and
optional `description` must be plain strings; `extra=vol.ALLOW_EXTRA`, so
every other key is accepted unvalidated and retained in the output. -/
def _MINIMAL_PLATFORM_SCHEMA (v : Val) : Except PyErr Dict :=
  match v with
  | .dict d =>
    if keyIsStrIfPresent d CONF_ID && keyIsStrIfPresent d CONF_ALIAS &&
       keyIsStrIfPresent d CONF_DESCRIPTION then
      .ok d
    else .error (.volInvalid "expected value of the declared type")
  | _ => .error (.volInvalid "expected a dictionary")

/-- The entity produced by validation: `class AutomationConfig(dict)` with
three bonus attributes. -/
structure AutomationConfig where
  data : Dict
  raw_config : Option Dict := none
  raw_blueprint_inputs : Option Dict := none
  validation_failed : Bool := false

/-- Source lines 112-120: derive a diagnostic name from `alias`, else `id`,
else a generic placeholder. -/
def get_automation_name (config : Val) : String :=
  match config with
  | .dict d =>
    match dictLookup d CONF_ALIAS with
    | some v => "Automation with alias " ++ pyStr v
    | none =>
      match dictLookup d CONF_ID with
      | some v => "Automation with ID " ++ pyStr v
      | none => "Unnamed automation"
  | _ => "Unnamed automation"

/-- Source lines 179-189: `log_invalid_automation` returns without logging
when `warn_on_errors` is false, otherwise emits one error record. -/
def log_invalid_automation (err : PyErr) (automation_name problem : String)
    (config : Val) (warn_on_errors : Bool) : List LogEvent :=
  if warn_on_errors then [.invalidAutomation automation_name problem err] else []

/-- Source lines 147-155: log the blueprint failure when `warn_on_errors`,
re-raise it when `raise_on_errors`. -/
def handle_blueprint_exception (err : PyErr)
    (warn_on_errors raise_on_errors : Bool) :
    Except PyErr Unit × List LogEvent :=
  let logs := if warn_on_errors then [LogEvent.blueprintError err] else []
  if raise_on_errors then (.error err, logs) else (.ok (), logs)

/-- Source lines 157-167: log the substitution failure when
`warn_on_errors`, and when `raise_on_errors` raise
`HomeAssistantError(err)` (a fresh wrapper, not the original exception). -/
def handle_undefined_substitution (err : PyErr)
    (blueprint_inputs : BlueprintInputs)
    (warn_on_errors raise_on_errors : Bool) :
    Except PyErr Unit × List LogEvent :=
  let logs :=
    if warn_on_errors then
      [LogEvent.blueprintSubstitutionError blueprint_inputs.blueprintName err]
    else []
  if raise_on_errors then (.error (.homeAssistantError (errMsg err)), logs)
  else (.ok (), logs)

/-- Source lines 191-198, `_minimal_config`.  The body's first statement is
`minimal_config = _MINIMAL_PLATFORM_SCHEMA(config)`, but `config` is not
bound anywhere in scope: the function's parameters are
`raw_blueprint_inputs` and `raw_config`, and no module-level name `config`
exists.  Every call therefore raises `NameError` before the minimal schema,
the `AutomationConfig` construction, or the `validation_failed` marker are
reached, so the function never returns an entity. -/
def _minimal_config (raw_blueprint_inputs raw_config : Option Dict) :
    Except PyErr AutomationConfig :=
  .error (.nameError "config")

/-- Source lines 169-177: log, re-raise under the strict policy, otherwise
fall back to `_minimal_config`. -/
def handle_invalid_configuration (err : PyErr)
    (automation_name problem : String) (config : Val)
    (raise_on_errors warn_on_errors : Bool)
    (raw_blueprint_inputs raw_config : Option Dict) :
    Except PyErr AutomationConfig × List LogEvent :=
  let logs := log_invalid_automation err automation_name problem config warn_on_errors
  if raise_on_errors then (.error err, logs)
  else
    match _minimal_config raw_blueprint_inputs raw_config with
    | .error e => (.error e, logs)
    | .ok ac => (.ok ac, logs)

/-- Source lines 122-145, `handle_blueprint`.  On a non-blueprint input the
passed-through triple is returned unchanged.  On a blueprint input the store
is queried; a `BlueprintException` is delegated to
`handle_blueprint_exception` and, when that returns instead of raising, the
triple `(uses_blueprint, None, config)` is returned — the caller then
continues with the unresolved `config`.  After a successful fetch the
snapshot `config_with_inputs` is captured, substitution is attempted, an
`UndefinedSubstitution` is delegated to `handle_undefined_substitution`
(again returning the unresolved `config` when not raising), and on success
the local statement `raw_config = dict(config)` runs (its result is dead:
the local name is dropped, but an exception from `dict` would propagate)
before the substituted configuration is returned. -/
def handle_blueprint (env : Env) (config : Val) (uses_blueprint : Bool)
    (raw_blueprint_inputs : Option Dict) (automation_name : String)
    (warn_on_errors raise_on_errors : Bool) :
    Except PyErr (Bool × Option Dict × Val) × List LogEvent :=
  if is_blueprint_instance_config config then
    match env.inputsFromConfig config with
    | .error err =>
      if isBlueprintException err then
        let hbe := handle_blueprint_exception err warn_on_errors raise_on_errors
        match hbe.1 with
        | .error e => (.error e, hbe.2)
        | .ok _ => (.ok (true, none, config), hbe.2)
      else (.error err, [])
    | .ok blueprint_inputs =>
      match blueprint_inputs.substituteResult with
      | .error err =>
        if isUndefinedSubstitution err then
          let hus := handle_undefined_substitution err blueprint_inputs
            warn_on_errors raise_on_errors
          match hus.1 with
          | .error e => (.error e, hus.2)
          | .ok _ =>
            (.ok (true, some blueprint_inputs.config_with_inputs, config), hus.2)
        else (.error err, [])
      | .ok config2 =>
        match pyDict config2 with
        | .error e => (.error e, [])
        | .ok _ =>
          (.ok (true, some blueprint_inputs.config_with_inputs, config2), [])
  else (.ok (uses_blueprint, raw_blueprint_inputs, config), [])

/-- Source lines 241-251, `handle_section_error`: log via
`log_invalid_automation` with the warn flag hardwired to `True` (the one
handler that logs independently of the caller's `warn_on_errors`), re-raise
under the strict policy, otherwise mark the entity failed. -/
def handle_section_error (err : PyErr) (automation_name problem : String)
    (validated_config : Dict) (raise_on_errors : Bool)
    (automation_config : AutomationConfig) :
    Except PyErr AutomationConfig × List LogEvent :=
  let logs := log_invalid_automation err automation_name problem
    (.dict validated_config) true
  if raise_on_errors then (.error err, logs)
  else (.ok { automation_config with validation_failed := true }, logs)

/-- The final `try` block of `validate_config_sections` (source lines
228-237), split out because it is reached along both condition paths:
validate the `action` section, catching `(vol.Invalid, HomeAssistantError)`
via `handle_section_error`. -/
def validate_action_section (env : Env) (validated_config : Dict)
    (automation_config : AutomationConfig) (automation_name : String)
    (raise_on_errors : Bool) :
    Except PyErr AutomationConfig × List LogEvent :=
  match dictLookup validated_config CONF_ACTION with
  | none => (.error (.keyError CONF_ACTION), [])
  | some actRaw =>
    match env.validateActions actRaw with
    | .error err =>
      if isInvalidOrHAError err then
        handle_section_error err automation_name "failed to setup actions"
          validated_config raise_on_errors automation_config
      else (.error err, [])
    | .ok actVal =>
      (.ok { automation_config with
              data := dictInsert automation_config.data CONF_ACTION actVal }, [])

/-- Source lines 200-239, `validate_config_sections`: validate trigger, then
condition (when present), then action, overwriting each key of the entity
with the validator's result; each stage catches
`(vol.Invalid, HomeAssistantError)` via `handle_section_error` and returns
at once.  Note the function receives no `warn_on_errors` flag at all. -/
def validate_config_sections (env : Env) (validated_config : Dict)
    (automation_config : AutomationConfig) (automation_name : String)
    (raise_on_errors : Bool) :
    Except PyErr AutomationConfig × List LogEvent :=
  match dictLookup validated_config CONF_TRIGGER with
  | none => (.error (.keyError CONF_TRIGGER), [])
  | some trigRaw =>
    match env.validateTrigger trigRaw with
    | .error err =>
      if isInvalidOrHAError err then
        handle_section_error err automation_name "failed to setup triggers"
          validated_config raise_on_errors automation_config
      else (.error err, [])
    | .ok trigVal =>
      let ac1 := { automation_config with
                    data := dictInsert automation_config.data CONF_TRIGGER trigVal }
      match dictLookup validated_config CONF_CONDITION with
      | none =>
        validate_action_section env validated_config ac1 automation_name
          raise_on_errors
      | some condRaw =>
        match env.validateConditions condRaw with
        | .error err =>
          if isInvalidOrHAError err then
            handle_section_error err automation_name "failed to setup conditions"
              validated_config raise_on_errors ac1
          else (.error err, [])
        | .ok condVal =>
          validate_action_section env validated_config
            { ac1 with data := dictInsert ac1.data CONF_CONDITION condVal }
            automation_name raise_on_errors

/-- Source lines 76-110, `_async_validate_config_item`: snapshot the raw
input (suppressing `ValueError`), derive the diagnostic name, run the
blueprint stage, apply the structural schema catching `vol.Invalid` via
`handle_invalid_configuration`, then build the entity and run the section
validators. -/
def _async_validate_config_item (env : Env) (config : Val)
    (raise_on_errors warn_on_errors : Bool) :
    Except PyErr AutomationConfig × List LogEvent :=
  match tryDictOfVal config with
  | .error e => (.error e, [])
  | .ok raw_config =>
    let automation_name := get_automation_name config
    let hb := handle_blueprint env config false none automation_name
      warn_on_errors raise_on_errors
    match hb.1 with
    | .error e => (.error e, hb.2)
    | .ok (_uses_blueprint, raw_blueprint_inputs, config2) =>
      match PLATFORM_SCHEMA config2 with
      | .error err =>
        if isVolInvalid err then
          let hic := handle_invalid_configuration err automation_name
            "could not be validated" config2 raise_on_errors warn_on_errors
            raw_blueprint_inputs raw_config
          (hic.1, hb.2 ++ hic.2)
        else (.error err, hb.2)
      | .ok validated_config =>
        let automation_config : AutomationConfig :=
          { data := validated_config,
            raw_blueprint_inputs := raw_blueprint_inputs,
            raw_config := raw_config }
        let vs := validate_config_sections env validated_config
          automation_config automation_name raise_on_errors
        (vs.1, hb.2 ++ vs.2)

/-- Source lines 262-270, `_try_async_validate_config_item`: the lenient
single-rule entry point, catching `(vol.Invalid, HomeAssistantError)` and
turning them into `None`. -/
def _try_async_validate_config_item (env : Env) (config : Val) :
    Except PyErr (Option AutomationConfig) × List LogEvent :=
  let r := _async_validate_config_item env config false true
  match r.1 with
  | .ok ac => (.ok (some ac), r.2)
  | .error e => if isInvalidOrHAError e then (.ok none, r.2) else (.error e, r.2)

/-- Source lines 273-279, `async_validate_config_item`: the strict
single-rule entry point used by the interactive editor
(`raise_on_errors = True`, `warn_on_errors = False`). -/
def async_validate_config_item (env : Env) (config_key : String) (config : Val) :
    Except PyErr AutomationConfig × List LogEvent :=
  _async_validate_config_item env config true false

/-- Modelled from the spec: `config_per_platform(config, DOMAIN)` lives in
`homeassistant.helpers`, outside the sampled sources; per §4.4 it yields
every entry configured under the automation domain key, one per list
element. -/
def config_per_platform (config : Dict) (domain : String) : List Val :=
  match dictLookup config domain with
  | some (.list xs) => xs
  | some v => [v]
  | none => []

/-- Modelled from the spec: `config_without_domain` lives in
`homeassistant.config`, outside the sampled sources; it returns the document
with the automation domain key removed. -/
def config_without_domain (config : Dict) (domain : String) : Dict :=
  config.filter (fun kv => kv.1 ≠ domain)

/-- `asyncio.gather` over `_try_async_validate_config_item`: the results are
collected positionally; an exception escaping any task aborts the gather. -/
def gatherTry (env : Env) : List Val →
    Except PyErr (List (Option AutomationConfig)) × List LogEvent
  | [] => (.ok [], [])
  | c :: cs =>
    let r := _try_async_validate_config_item env c
    match r.1 with
    | .error e => (.error e, r.2)
    | .ok o =>
      let rest := gatherTry env cs
      match rest.1 with
      | .error e => (.error e, r.2 ++ rest.2)
      | .ok os => (.ok (o :: os), r.2 ++ rest.2)

/-- The batch result: the document without the automation domain plus the
validated entities put back under it (an `AutomationConfig` is not a plain
`Val`, so the rebuilt document is a structure rather than a `Dict`). -/
structure BatchResult where
  rest : Dict
  automations : List AutomationConfig

/-- Source lines 282-301, `async_validate_config`: validate every automation
entry leniently and concurrently, drop the entries that produced `None`, and
re-emit the document with the surviving entities in their original relative
order. -/
def async_validate_config (env : Env) (config : Dict) :
    Except PyErr BatchResult × List LogEvent :=
  let g := gatherTry env (config_per_platform config DOMAIN)
  match g.1 with
  | .error e => (.error e, g.2)
  | .ok os =>
    (.ok { rest := config_without_domain config DOMAIN,
           automations := os.filterMap id }, g.2)

/-! Concrete environments and inputs used by the counterexamples and
witnesses below. -/

/-- An environment whose blueprint store has no blueprints and whose section
validators normalize a raw value `v` into the one-element sequence `[v]`
(so normalized output is visibly different from raw input). -/
def envPlain : Env :=
  { inputsFromConfig := fun _ => .error (.blueprintException "no store"),
    validateTrigger := fun v => .ok (.list [v]),
    validateConditions := fun v => .ok (.list [v]),
    validateActions := fun v => .ok (.list [v]) }

/-- A rule with an alias and a trigger but no `action` key. -/
def cfgNoAction : Val := .dict [("alias", .str "Bad Rule"), ("trigger", .str "t")]

/-- The spec §8 scenario `{"alias": "Bad Rule"}`: neither trigger nor
action. -/
def cfgBadRule : Val := .dict [("alias", .str "Bad Rule")]

/-- The spec §8 scenario of a structurally valid non-blueprint rule. -/
def cfgGood : Val :=
  .dict [("trigger", .dict [("platform", .str "state")]),
         ("action", .dict [("service", .str "x.y")])]

/-- A blueprint reference. -/
def cfgBlueprintRef : Val :=
  .dict [("use_blueprint", .dict [("path", .str "nonexistent.yaml")])]

/-- Like `envPlain` but the trigger validator rejects everything with
`vol.Invalid`. -/
def envTrigFail : Env :=
  { envPlain with validateTrigger := fun _ => .error (.volInvalid "bad trigger") }

/-- A rule that passes the structural schema but whose trigger section the
trigger validator of `envTrigFail` rejects. -/
def cfgTrigBad : Val := .dict [("trigger", .str "bad"), ("action", .str "a")]

/-- The entity actually returned for `cfgTrigBad` under the lenient policy:
marked failed, yet still carrying the structural trigger and action
values. -/
def entC2 : AutomationConfig :=
  { data := [("trigger", .str "bad"), ("action", .str "a"), ("trace", .dict [])],
    raw_config := some [("trigger", .str "bad"), ("action", .str "a")],
    raw_blueprint_inputs := none,
    validation_failed := true }

/-- Blueprint inputs whose substitution fails on a required input with no
value and no default. -/
def biUndef : BlueprintInputs :=
  { config_with_inputs := [("use_blueprint", .dict [("path", .str "motion.yaml")])],
    substituteResult := .error (.undefinedSubstitution "missing input light"),
    blueprintName := "motion", inputs := .dict [] }

/-- Environment whose blueprint store fetches `biUndef`. -/
def envUndefSub : Env := { envPlain with inputsFromConfig := fun _ => .ok biUndef }

/-- Blueprint inputs that substitute successfully into a concrete rule that
differs from the blueprint-reference form. -/
def biOk : BlueprintInputs :=
  { config_with_inputs := [("use_blueprint", .dict [("path", .str "bp.yaml")]),
                           ("light", .str "l1")],
    substituteResult := .ok (.dict [("trigger", .str "t"), ("action", .str "a")]),
    blueprintName := "bp", inputs := .dict [] }

/-- Environment whose blueprint store fetches `biOk`. -/
def envBp : Env := { envPlain with inputsFromConfig := fun _ => .ok biOk }

/-- Environment for the batch scenario: identity section validators, and a
blueprint store that fails with a plain `HomeAssistantError` (not a
`BlueprintException`), which the lenient entry point converts to `None`. -/
def envBatch : Env :=
  { inputsFromConfig := fun _ => .error (.homeAssistantError "store down"),
    validateTrigger := fun v => .ok v,
    validateConditions := fun v => .ok v,
    validateActions := fun v => .ok v }

/-- First batch entry: a valid rule. -/
def rBatch1 : Val := .dict [("trigger", .str "t1"), ("action", .str "a1")]

/-- Second batch entry: a blueprint reference whose fetch fails with the
error `envBatch` produces, so its lenient validation yields no entity. -/
def rBatch2 : Val := .dict [("use_blueprint", .dict [("path", .str "x")])]

/-- Third batch entry: a valid rule. -/
def rBatch3 : Val := .dict [("trigger", .str "t3"), ("action", .str "a3")]

/-- A document holding the three batch entries plus unrelated top-level
configuration. -/
def docBatch : Dict := [("automation", .list [rBatch1, rBatch2, rBatch3]),
                        ("other", .str "x")]

/-- The surviving entity for the first batch entry. -/
def acBatch1 : AutomationConfig :=
  { data := [("trigger", .str "t1"), ("action", .str "a1"), ("trace", .dict [])],
    raw_config := some [("trigger", .str "t1"), ("action", .str "a1")],
    raw_blueprint_inputs := none, validation_failed := false }

/-- The surviving entity for the third batch entry. -/
def acBatch3 : AutomationConfig :=
  { data := [("trigger", .str "t3"), ("action", .str "a3"), ("trace", .dict [])],
    raw_config := some [("trigger", .str "t3"), ("action", .str "a3")],
    raw_blueprint_inputs := none, validation_failed := false }

/-- Projection of a gather slot: `some o` when the lenient validation of the
entry completed (with `o = none` exactly when the entry was converted to
`None`), and `none` when an exception escaped it. -/
def exOptOk : Except PyErr (Option AutomationConfig) → Option (Option AutomationConfig)
  | .ok o => some o
  | .error _ => none

/-- A structurally validated mapping whose trigger `envTrigFail` rejects. -/
def vcC7 : Dict := [("trigger", .str "bad"), ("action", .str "a"), ("trace", .dict [])]

/-- An entity under construction for `vcC7`. -/
def acC7 : AutomationConfig := { data := vcC7 }

/-- The structural-schema output for `cfgGood`. -/
def vcGood : Dict :=
  [("trigger", .dict [("platform", .str "state")]),
   ("action", .dict [("service", .str "x.y")]),
   ("trace", .dict [])]

/-! Helper lemmas about the dictionary operations and the error handlers. -/

theorem dictLookup_dictInsert_self (d : Dict) (k : String) (v : Val) :
    dictLookup (dictInsert d k v) k = some v := by
  induction d with
  | nil => simp [dictInsert, dictLookup]
  | cons kv rest ih =>
    obtain ⟨a, b⟩ := kv
    by_cases h : a = k
    · simp [dictInsert, h, dictLookup]
    · simp [dictInsert, h, dictLookup, ih]

theorem dictLookup_dictInsert_ne (d : Dict) (k k' : String) (v : Val)
    (h : k' ≠ k) :
    dictLookup (dictInsert d k v) k' = dictLookup d k' := by
  have h' : ¬ (k = k') := Ne.symm h
  induction d with
  | nil => simp [dictInsert, dictLookup, h']
  | cons kv rest ih =>
    obtain ⟨a, b⟩ := kv
    by_cases ha : a = k
    · subst ha
      simp [dictInsert, dictLookup, h']
    · simp only [dictInsert, if_neg ha]
      by_cases ha' : a = k'
      · simp [dictLookup, ha']
      · simp [dictLookup, ha', ih]

theorem dictHasKey_dictInsert_of (d : Dict) (k k' : String) (v : Val)
    (h : dictHasKey d k' = true) :
    dictHasKey (dictInsert d k v) k' = true := by
  by_cases hk : k' = k
  · subst hk
    simp [dictHasKey, dictLookup_dictInsert_self]
  · rwa [dictHasKey, dictLookup_dictInsert_ne d k k' v hk]

theorem handle_section_error_spec (err : PyErr) (nm pb : String) (vc : Dict)
    (ron : Bool) (ac : AutomationConfig) :
    handle_section_error err nm pb vc ron ac =
      ((if ron then .error err else .ok { ac with validation_failed := true }),
       [LogEvent.invalidAutomation nm pb err]) := by
  cases ron <;> rfl

theorem handle_invalid_configuration_fst (err : PyErr) (nm pb : String)
    (cfg : Val) (ron won : Bool) (rbi rc : Option Dict) :
    (handle_invalid_configuration err nm pb cfg ron won rbi rc).1 =
      if ron then .error err else .error (.nameError "config") := by
  cases ron <;> rfl

theorem handle_blueprint_exception_fst (err : PyErr) (w r : Bool) :
    (handle_blueprint_exception err w r).1 =
      if r then .error err else .ok () := by
  cases r <;> rfl

theorem handle_undefined_substitution_fst (err : PyErr)
    (bi : BlueprintInputs) (w r : Bool) :
    (handle_undefined_substitution err bi w r).1 =
      if r then .error (.homeAssistantError (errMsg err)) else .ok () := by
  cases r <;> rfl

theorem PLATFORM_SCHEMA_ok_keys (v : Val) (vc : Dict)
    (h : PLATFORM_SCHEMA v = .ok vc) :
    dictHasKey vc CONF_TRIGGER = true ∧ dictHasKey vc CONF_ACTION = true := by
  cases v with
  | dict d =>
    simp only [PLATFORM_SCHEMA] at h
    split_ifs at h with h1 h2 h3 h4 h5
    · cases h
      exact ⟨h2, h3⟩
    · cases h
      exact ⟨dictHasKey_dictInsert_of d CONF_TRACE CONF_TRIGGER (.dict []) h2,
             dictHasKey_dictInsert_of d CONF_TRACE CONF_ACTION (.dict []) h3⟩
  | str s => exact Except.noConfusion h
  | bool b => exact Except.noConfusion h
  | nat n => exact Except.noConfusion h
  | list l => exact Except.noConfusion h
theorem validate_action_section_preserves (env : Env) (vc : Dict)
    (ac0 : AutomationConfig) (nm : String) (ron : Bool) (ac : AutomationConfig)
    (h : (validate_action_section env vc ac0 nm ron).1 = .ok ac) :
    ac.raw_config = ac0.raw_config ∧
    ac.raw_blueprint_inputs = ac0.raw_blueprint_inputs ∧
    ∀ k, dictHasKey ac0.data k = true → dictHasKey ac.data k = true := by
  unfold validate_action_section at h
  split at h
  · exact Except.noConfusion h
  · split at h
    · split at h
      · rw [handle_section_error_spec] at h
        cases ron with
        | true => exact Except.noConfusion h
        | false =>
          dsimp only at h
          injection h with h2
          subst h2
          exact ⟨rfl, rfl, fun k hk => hk⟩
      · exact Except.noConfusion h
    · dsimp only at h
      injection h with h2
      subst h2
      exact ⟨rfl, rfl, fun k hk =>
        dictHasKey_dictInsert_of ac0.data CONF_ACTION k _ hk⟩

theorem validate_config_sections_preserves (env : Env) (vc : Dict)
    (ac0 : AutomationConfig) (nm : String) (ron : Bool) (ac : AutomationConfig)
    (h : (validate_config_sections env vc ac0 nm ron).1 = .ok ac) :
    ac.raw_config = ac0.raw_config ∧
    ac.raw_blueprint_inputs = ac0.raw_blueprint_inputs ∧
    ∀ k, dictHasKey ac0.data k = true → dictHasKey ac.data k = true := by
  unfold validate_config_sections at h
  split at h
  · exact Except.noConfusion h
  · split at h
    · split at h
      · rw [handle_section_error_spec] at h
        cases ron with
        | true => exact Except.noConfusion h
        | false =>
          dsimp only at h
          injection h with h2
          subst h2
          exact ⟨rfl, rfl, fun k hk => hk⟩
      · exact Except.noConfusion h
    · dsimp only at h
      split at h
      · have hp := validate_action_section_preserves env vc _ nm ron ac h
        exact ⟨hp.1, hp.2.1, fun k hk => hp.2.2 k
          (dictHasKey_dictInsert_of ac0.data CONF_TRIGGER k _ hk)⟩
      · split at h
        · split at h
          · rw [handle_section_error_spec] at h
            cases ron with
            | true => exact Except.noConfusion h
            | false =>
              dsimp only at h
              injection h with h2
              subst h2
              exact ⟨rfl, rfl, fun k hk =>
                dictHasKey_dictInsert_of ac0.data CONF_TRIGGER k _ hk⟩
          · exact Except.noConfusion h
        · have hp := validate_action_section_preserves env vc _ nm ron ac h
          exact ⟨hp.1, hp.2.1, fun k hk => hp.2.2 k
            (dictHasKey_dictInsert_of _ CONF_CONDITION k _
              (dictHasKey_dictInsert_of ac0.data CONF_TRIGGER k _ hk))⟩

theorem _async_validate_config_item_fst (env : Env) (config : Val)
    (ron won : Bool) :
    (_async_validate_config_item env config ron won).1 =
      match tryDictOfVal config with
      | .error e => .error e
      | .ok rc =>
        match (handle_blueprint env config false none
            (get_automation_name config) won ron).1 with
        | .error e => .error e
        | .ok (_, rbi, c2) =>
          match PLATFORM_SCHEMA c2 with
          | .error err =>
            if isVolInvalid err then
              (handle_invalid_configuration err (get_automation_name config)
                "could not be validated" c2 ron won rbi rc).1
            else .error err
          | .ok vc =>
            (validate_config_sections env vc
              { data := vc, raw_blueprint_inputs := rbi, raw_config := rc }
              (get_automation_name config) ron).1 := by
  unfold _async_validate_config_item
  cases hr : tryDictOfVal config with
  | error e => rfl
  | ok rc =>
    simp only []
    cases hb : (handle_blueprint env config false none
        (get_automation_name config) won ron).1 with
    | error e => rfl
    | ok tri =>
      obtain ⟨ub, rbi, c2⟩ := tri
      simp only []
      cases hs : PLATFORM_SCHEMA c2 with
      | error err =>
        by_cases hv : isVolInvalid err = true
        · simp only [if_pos hv]
        · simp only [if_neg hv]
      | ok vc => rfl
theorem handle_blueprint_fst_warn_indep (env : Env) (c : Val) (ub : Bool)
    (rbi : Option Dict) (nm : String) (w w' ron : Bool) :
    (handle_blueprint env c ub rbi nm w ron).1 =
    (handle_blueprint env c ub rbi nm w' ron).1 := by
  unfold handle_blueprint
  by_cases hbp : is_blueprint_instance_config c = true
  · rw [if_pos hbp, if_pos hbp]
    cases hin : env.inputsFromConfig c with
    | error err =>
      dsimp only
      by_cases hbe : isBlueprintException err = true
      · rw [if_pos hbe, if_pos hbe]
        cases ron <;> rfl
      · rw [if_neg hbe, if_neg hbe]
    | ok bi =>
      dsimp only
      cases hsub : bi.substituteResult with
      | error err =>
        dsimp only
        by_cases hus : isUndefinedSubstitution err = true
        · rw [if_pos hus, if_pos hus]
          cases ron <;> rfl
        · rw [if_neg hus, if_neg hus]
      | ok c2 => cases hd : pyDict c2 <;> rfl
  · rw [if_neg hbp, if_neg hbp]

/-! Theorems settling the claims. -/

/-- C1: for a rule missing the required `action` key, the strict policy does
re-raise the schema violation (`vol.Invalid`), but the lenient policy does
not return the minimal `id`/`alias`/`description` entity the claim
describes: the fallback `_minimal_config` evaluates the unbound name
`config` and the call raises `NameError` instead of returning an entity. -/
theorem C1_missing_action_schema_violation :
    (_async_validate_config_item envPlain cfgNoAction true false).1 =
      .error (.volInvalid "required key not provided @ data[action]")
    ∧ (_async_validate_config_item envPlain cfgNoAction false true).1 =
      .error (.nameError "config") :=
  ⟨rfl, rfl⟩

/-- C2 counterexample: the lenient validation of `cfgTrigBad` (whose trigger
section fails its validator) returns the entity `entC2` with
`validation_failed = true` whose mapping still contains the `trigger` and
`action` keys — refuting the claim that a failed entity carries at most
`id`/`alias`/`description`. -/
theorem C2_counterexample_failed_entity_has_sections :
    (_async_validate_config_item envTrigFail cfgTrigBad false true).1 = .ok entC2
    ∧ entC2.validation_failed = true
    ∧ dictHasKey entC2.data CONF_TRIGGER = true
    ∧ dictHasKey entC2.data CONF_ACTION = true :=
  ⟨rfl, rfl, rfl, rfl⟩

/-- C2 (amended): every entity the rule validator returns with
`validation_failed = true` was produced by the section-validation stage, and
its mapping still contains the structurally validated fields — in particular
both `trigger` and `action` — rather than being reduced to the minimal
`id`/`alias`/`description` set (the minimal fallback path never returns). -/
theorem C2_failed_entity_retains_sections (env : Env) (config : Val)
    (ron won : Bool) (ac : AutomationConfig)
    (h : (_async_validate_config_item env config ron won).1 = .ok ac)
    (hf : ac.validation_failed = true) :
    dictHasKey ac.data CONF_TRIGGER = true ∧
    dictHasKey ac.data CONF_ACTION = true := by
  rw [_async_validate_config_item_fst] at h
  cases hr : tryDictOfVal config with
  | error e => rw [hr] at h; exact Except.noConfusion h
  | ok rc =>
    rw [hr] at h
    dsimp only at h
    cases hb : (handle_blueprint env config false none
        (get_automation_name config) won ron).1 with
    | error e => rw [hb] at h; exact Except.noConfusion h
    | ok tri =>
      obtain ⟨ub, rbi, c2⟩ := tri
      rw [hb] at h
      dsimp only at h
      cases hs : PLATFORM_SCHEMA c2 with
      | error err =>
        rw [hs] at h
        dsimp only at h
        split at h
        · rw [handle_invalid_configuration_fst] at h
          cases ron with
          | true => exact Except.noConfusion h
          | false => exact Except.noConfusion h
        · exact Except.noConfusion h
      | ok vc =>
        rw [hs] at h
        dsimp only at h
        have hkeys := PLATFORM_SCHEMA_ok_keys c2 vc hs
        have hp := validate_config_sections_preserves env vc _ _ ron ac h
        exact ⟨hp.2.2 CONF_TRIGGER hkeys.1, hp.2.2 CONF_ACTION hkeys.2⟩

/-- C2 witness: the amended statement applied to the concrete failed entity
`entC2`. -/
theorem C2_amended_witness :
    (_async_validate_config_item envTrigFail cfgTrigBad false true).1 = .ok entC2
    ∧ entC2.validation_failed = true
    ∧ (dictHasKey entC2.data CONF_TRIGGER = true ∧
       dictHasKey entC2.data CONF_ACTION = true) :=
  ⟨rfl, rfl, C2_failed_entity_retains_sections envTrigFail cfgTrigBad
    false true entC2 rfl rfl⟩

/-- C3: for a rule referencing a blueprint whose fetch fails, the strict
policy does propagate the `BlueprintException`, but the lenient policy does
not stop at the blueprint stage with a minimal `validation_failed` entity:
`handle_blueprint` returns the unresolved configuration to the caller, which
proceeds to structural schema validation (the `use_blueprint` mapping fails
it) and then raises `NameError` out of the broken `_minimal_config`
fallback. -/
theorem C3_blueprint_fetch_failure :
    (_async_validate_config_item envPlain cfgBlueprintRef true false).1 =
      .error (.blueprintException "no store")
    ∧ (_async_validate_config_item envPlain cfgBlueprintRef false true).1 =
      .error (.nameError "config") :=
  ⟨rfl, rfl⟩

/-- C4: the lenient entry point `_try_async_validate_config_item` lets an
exception escape on the plain invalid rule `{alias: Bad Rule}`: the
`NameError` raised by `_minimal_config` matches neither `vol.Invalid` nor
`HomeAssistantError`, so instead of an entity or `None` the call raises. -/
theorem C4_lenient_entry_point_raises :
    (_try_async_validate_config_item envPlain cfgBadRule).1 =
      .error (.nameError "config") :=
  rfl

/-- C8: for a blueprint rule whose substitution fails on a required input
with no value and no default, the lenient policy does not return a
`validation_failed` entity carrying the pre-substitution snapshot: the
unresolved configuration is passed on to structural schema validation, which
fails, and the `NameError` from `_minimal_config` propagates, so no entity
(and hence no `raw_blueprint_inputs` snapshot) is ever produced. -/
theorem C8_undefined_substitution_lenient_crashes :
    (_async_validate_config_item envUndefSub cfgBlueprintRef false true).1 =
      .error (.nameError "config") :=
  rfl

/-- C9: every entity the rule validator returns carries `raw_config` equal
to the snapshot `dict(config)` of the original rule input taken before any
blueprint resolution (the post-substitution reassignment inside
`handle_blueprint` is a dead local), and `raw_blueprint_inputs = none`
whenever the input is not a blueprint reference. -/
theorem C9_raw_snapshots (env : Env) (config : Val) (rc : Option Dict)
    (ron won : Bool) (ac : AutomationConfig)
    (hraw : tryDictOfVal config = .ok rc)
    (h : (_async_validate_config_item env config ron won).1 = .ok ac)
    (hok : ac.validation_failed = false) :
    ac.raw_config = rc ∧
    (is_blueprint_instance_config config = false →
      ac.raw_blueprint_inputs = none) := by
  rw [_async_validate_config_item_fst, hraw] at h
  dsimp only at h
  cases hb : (handle_blueprint env config false none
      (get_automation_name config) won ron).1 with
  | error e => rw [hb] at h; exact Except.noConfusion h
  | ok tri =>
    obtain ⟨ub, rbi, c2⟩ := tri
    rw [hb] at h
    dsimp only at h
    cases hs : PLATFORM_SCHEMA c2 with
    | error err =>
      rw [hs] at h
      dsimp only at h
      split at h
      · rw [handle_invalid_configuration_fst] at h
        cases ron with
        | true => exact Except.noConfusion h
        | false => exact Except.noConfusion h
      · exact Except.noConfusion h
    | ok vc =>
      rw [hs] at h
      dsimp only at h
      have hp := validate_config_sections_preserves env vc _ _ ron ac h
      constructor
      · exact hp.1
      · intro hnb
        have hb2 : (handle_blueprint env config false none
            (get_automation_name config) won ron).1 =
            .ok (false, none, config) := by
          unfold handle_blueprint
          rw [hnb]
          rfl
        have hbb := (hb.symm.trans hb2)
        injection hbb with htri
        injection htri with h1 h23
        injection h23 with h2 h3
        exact hp.2.1.trans h2

/-- C9 witness: a blueprint rule whose substitution succeeds; the returned
entity snapshots the original blueprint-reference form in `raw_config`, not
the substituted rule. -/
theorem C9_witness :
    tryDictOfVal cfgBlueprintRef =
      .ok (some [("use_blueprint", .dict [("path", .str "nonexistent.yaml")])])
    ∧ (_async_validate_config_item envBp cfgBlueprintRef true false).1 =
      .ok { data := [("trigger", .list [.str "t"]),
                     ("action", .list [.str "a"]), ("trace", .dict [])],
            raw_config := some [("use_blueprint",
              .dict [("path", .str "nonexistent.yaml")])],
            raw_blueprint_inputs := some biOk.config_with_inputs,
            validation_failed := false }
    ∧ ({ data := [("trigger", .list [.str "t"]),
                  ("action", .list [.str "a"]), ("trace", .dict [])],
         raw_config := some [("use_blueprint",
           .dict [("path", .str "nonexistent.yaml")])],
         raw_blueprint_inputs := some biOk.config_with_inputs,
         validation_failed := false } : AutomationConfig).raw_config =
        some [("use_blueprint", .dict [("path", .str "nonexistent.yaml")])] :=
  ⟨rfl, rfl,
    (C9_raw_snapshots envBp cfgBlueprintRef
      (some [("use_blueprint", .dict [("path", .str "nonexistent.yaml")])])
      true false _ rfl rfl rfl).1⟩

/-- C10: for every environment, rule input and fixed `raise_on_errors`, the
result (returned entity or raised exception) of the rule validator is the
same for both values of `warn_on_errors`; the flag only gates log output. -/
theorem C10_result_independent_of_warn_flag (env : Env) (config : Val)
    (ron w w' : Bool) :
    (_async_validate_config_item env config ron w).1 =
    (_async_validate_config_item env config ron w').1 := by
  rw [_async_validate_config_item_fst, _async_validate_config_item_fst]
  cases hr : tryDictOfVal config with
  | error e => rfl
  | ok rc =>
    dsimp only
    rw [handle_blueprint_fst_warn_indep env config false none
      (get_automation_name config) w w' ron]
    cases hb : (handle_blueprint env config false none
        (get_automation_name config) w' ron).1 with
    | error e => rfl
    | ok tri =>
      obtain ⟨ub, rbi, c2⟩ := tri
      dsimp only
      cases hs : PLATFORM_SCHEMA c2 with
      | error err =>
        dsimp only
        split
        · rw [handle_invalid_configuration_fst, handle_invalid_configuration_fst]
        · rfl
      | ok vc => rfl
theorem filterMap_id_map {α β : Type} (f : α → Option β) (l : List α) :
    (l.map f).filterMap id = l.filterMap f := by
  induction l with
  | nil => rfl
  | cons a t ih => cases hfa : f a <;> simp [List.filterMap_cons, hfa, ih]

theorem gatherTry_fst_ok (env : Env) (l : List Val)
    (h : (l.all fun e =>
      (exOptOk (_try_async_validate_config_item env e).1).isSome) = true) :
    (gatherTry env l).1 =
      .ok (l.map fun e =>
        (exOptOk (_try_async_validate_config_item env e).1).getD none) := by
  induction l with
  | nil => rfl
  | cons c cs ih =>
    rw [List.all_cons, Bool.and_eq_true] at h
    obtain ⟨h1, h2⟩ := h
    unfold gatherTry
    dsimp only
    cases hr : (_try_async_validate_config_item env c).1 with
    | error e =>
      rw [hr] at h1
      exact absurd h1 (by simp [exOptOk])
    | ok o =>
      rw [List.map_cons, hr]
      dsimp only
      rw [ih h2]
      dsimp only [exOptOk, Option.getD]

/-- C5: whenever the lenient validation of every automation entry of a
document completes without an escaping exception, the batch validator
replaces the automation entries by the per-entry results with the `None`
entries dropped, preserving the original relative order (the gather is
positional and the filter is order-preserving), and leaves the rest of the
document intact. -/
theorem C5_batch_drops_none_preserves_order (env : Env) (config : Dict)
    (h : ((config_per_platform config DOMAIN).all fun e =>
      (exOptOk (_try_async_validate_config_item env e).1).isSome) = true) :
    (async_validate_config env config).1 =
      .ok { rest := config_without_domain config DOMAIN,
            automations := (config_per_platform config DOMAIN).filterMap
              fun e =>
                (exOptOk (_try_async_validate_config_item env e).1).getD none } := by
  unfold async_validate_config
  dsimp only
  rw [gatherTry_fst_ok env _ h]
  dsimp only
  rw [filterMap_id_map]

/-- C5 witness: a document with three automation entries whose second yields
no entity under the lenient policy; exactly the first and third survive, in
that order, and the unrelated key is untouched. -/
theorem C5_witness :
    ((config_per_platform docBatch DOMAIN).all fun e =>
      (exOptOk (_try_async_validate_config_item envBatch e).1).isSome) = true
    ∧ (async_validate_config envBatch docBatch).1 =
        .ok { rest := [("other", .str "x")],
              automations := [acBatch1, acBatch3] } :=
  ⟨rfl, (C5_batch_drops_none_preserves_order envBatch docBatch rfl).trans rfl⟩

/-- C6: a non-blueprint rule that passes the structural schema and all of
its section validators is returned by strict validation with
`validation_failed = false` and with the `trigger`, `condition` and `action`
keys holding the values returned by the external validators, not the raw
structural values. -/
theorem C6_strict_success_normalized (env : Env) (config : Val) (vc : Dict)
    (tRaw aRaw tN aN : Val)
    (hnb : is_blueprint_instance_config config = false)
    (hs : PLATFORM_SCHEMA config = .ok vc)
    (ht : dictLookup vc CONF_TRIGGER = some tRaw)
    (htv : env.validateTrigger tRaw = .ok tN)
    (ha : dictLookup vc CONF_ACTION = some aRaw)
    (hav : env.validateActions aRaw = .ok aN)
    (hcv : ∀ cRaw, dictLookup vc CONF_CONDITION = some cRaw →
      ∃ cN, env.validateConditions cRaw = .ok cN) :
    ∃ ac, (async_validate_config_item env "automation" config).1 = .ok ac
      ∧ ac.validation_failed = false
      ∧ dictLookup ac.data CONF_TRIGGER = some tN
      ∧ dictLookup ac.data CONF_ACTION = some aN
      ∧ (∀ cRaw cN, dictLookup vc CONF_CONDITION = some cRaw →
          env.validateConditions cRaw = .ok cN →
          dictLookup ac.data CONF_CONDITION = some cN) := by
  cases config with
  | str s => exact Except.noConfusion hs
  | bool b => exact Except.noConfusion hs
  | nat n => exact Except.noConfusion hs
  | list l => exact Except.noConfusion hs
  | dict d =>
    unfold async_validate_config_item
    rw [_async_validate_config_item_fst]
    have hb : (handle_blueprint env (.dict d) false none
        (get_automation_name (.dict d)) false true).1 =
        .ok (false, none, .dict d) := by
      unfold handle_blueprint
      rw [hnb]
      rfl
    rw [show tryDictOfVal (Val.dict d) = .ok (some d) from rfl]
    dsimp only
    rw [hb]
    dsimp only
    rw [hs]
    dsimp only
    unfold validate_config_sections
    rw [ht]
    dsimp only
    rw [htv]
    dsimp only
    cases hcond : dictLookup vc CONF_CONDITION with
    | none =>
      unfold validate_action_section
      rw [ha]
      dsimp only
      rw [hav]
      dsimp only
      refine ⟨_, rfl, rfl, ?_, ?_, ?_⟩
      · rw [dictLookup_dictInsert_ne _ CONF_ACTION CONF_TRIGGER aN (by decide)]
        exact dictLookup_dictInsert_self vc CONF_TRIGGER tN
      · exact dictLookup_dictInsert_self _ CONF_ACTION aN
      · intro cRaw cN hc hv
        exact Option.noConfusion hc
    | some condRaw =>
      obtain ⟨cN, hcv2⟩ := hcv condRaw hcond
      dsimp only
      rw [hcv2]
      dsimp only
      unfold validate_action_section
      rw [ha]
      dsimp only
      rw [hav]
      dsimp only
      refine ⟨_, rfl, rfl, ?_, ?_, ?_⟩
      · rw [dictLookup_dictInsert_ne _ CONF_ACTION CONF_TRIGGER aN (by decide),
            dictLookup_dictInsert_ne _ CONF_CONDITION CONF_TRIGGER cN (by decide)]
        exact dictLookup_dictInsert_self vc CONF_TRIGGER tN
      · exact dictLookup_dictInsert_self _ CONF_ACTION aN
      · intro cRaw' cN' hc hv
        injection hc with hceq
        subst hceq
        have hcc := hcv2.symm.trans hv
        injection hcc with hcn
        subst hcn
        rw [dictLookup_dictInsert_ne _ CONF_ACTION CONF_CONDITION aN (by decide)]
        exact dictLookup_dictInsert_self _ CONF_CONDITION _

/-- C6 witness: the spec §8 scenario rule validated strictly under
`envPlain`; the sections of the result hold the one-element normalized
sequences, not the raw mappings. -/
theorem C6_witness :
    PLATFORM_SCHEMA cfgGood = .ok vcGood
    ∧ (∃ ac, (async_validate_config_item envPlain "automation" cfgGood).1 = .ok ac
        ∧ ac.validation_failed = false
        ∧ dictLookup ac.data CONF_TRIGGER =
            some (.list [.dict [("platform", .str "state")]])
        ∧ dictLookup ac.data CONF_ACTION =
            some (.list [.dict [("service", .str "x.y")]])
        ∧ (∀ cRaw cN, dictLookup vcGood CONF_CONDITION = some cRaw →
            envPlain.validateConditions cRaw = .ok cN →
            dictLookup ac.data CONF_CONDITION = some cN)) :=
  ⟨rfl, C6_strict_success_normalized envPlain cfgGood vcGood _ _ _ _
    rfl rfl rfl rfl rfl rfl (fun cRaw hc => Option.noConfusion hc)⟩

/-- C7: a failure of a section validator of an anticipated kind
(`vol.Invalid` or `HomeAssistantError`) is always logged — the section
stages receive no `warn_on_errors` flag and `handle_section_error` hardwires
the warn argument to true — and then the stage either re-raises the error
(strict) or marks the entity `validation_failed` and returns at once without
consulting the validators of any later section (the conclusion of each case
is fully determined without any assumption on the remaining validators). -/
theorem C7_section_failure_logged_and_stops (env : Env) (vc : Dict)
    (ac0 : AutomationConfig) (nm : String) (ron : Bool) (tRaw : Val)
    (ht : dictLookup vc CONF_TRIGGER = some tRaw) :
    (∀ err, isInvalidOrHAError err = true → env.validateTrigger tRaw = .error err →
      validate_config_sections env vc ac0 nm ron =
        ((if ron then .error err else .ok { ac0 with validation_failed := true }),
         [LogEvent.invalidAutomation nm "failed to setup triggers" err]))
    ∧ (∀ tN cRaw err, env.validateTrigger tRaw = .ok tN →
        dictLookup vc CONF_CONDITION = some cRaw →
        isInvalidOrHAError err = true →
        env.validateConditions cRaw = .error err →
        validate_config_sections env vc ac0 nm ron =
          ((if ron then .error err
            else .ok { ac0 with
                        data := dictInsert ac0.data CONF_TRIGGER tN
                        validation_failed := true }),
           [LogEvent.invalidAutomation nm "failed to setup conditions" err]))
    ∧ (∀ tN aRaw err, env.validateTrigger tRaw = .ok tN →
        dictLookup vc CONF_CONDITION = none →
        dictLookup vc CONF_ACTION = some aRaw →
        isInvalidOrHAError err = true →
        env.validateActions aRaw = .error err →
        validate_config_sections env vc ac0 nm ron =
          ((if ron then .error err
            else .ok { ac0 with
                        data := dictInsert ac0.data CONF_TRIGGER tN
                        validation_failed := true }),
           [LogEvent.invalidAutomation nm "failed to setup actions" err])) := by
  refine ⟨?_, ?_, ?_⟩
  · intro err hc hv
    unfold validate_config_sections
    rw [ht]
    dsimp only
    rw [hv]
    dsimp only
    rw [if_pos hc, handle_section_error_spec]
  · intro tN cRaw err hv hcond hc hv2
    unfold validate_config_sections
    rw [ht]
    dsimp only
    rw [hv]
    dsimp only
    rw [hcond]
    dsimp only
    rw [hv2]
    dsimp only
    rw [if_pos hc, handle_section_error_spec]
  · intro tN aRaw err hv hcond ha hc hv2
    unfold validate_config_sections validate_action_section
    rw [ht]
    dsimp only
    rw [hv]
    dsimp only
    rw [hcond]
    dsimp only
    rw [ha]
    dsimp only
    rw [hv2]
    dsimp only
    rw [if_pos hc, handle_section_error_spec]

/-- C7 witness: the trigger case applied to the concrete mapping `vcC7`
under `envTrigFail` with the lenient policy: the entity is flagged, nothing
was inserted, and the failure was logged. -/
theorem C7_witness :
    dictLookup vcC7 CONF_TRIGGER = some (.str "bad")
    ∧ isInvalidOrHAError (.volInvalid "bad trigger") = true
    ∧ envTrigFail.validateTrigger (.str "bad") = .error (.volInvalid "bad trigger")
    ∧ validate_config_sections envTrigFail vcC7 acC7 "nm" false =
        (.ok { acC7 with validation_failed := true },
         [LogEvent.invalidAutomation "nm" "failed to setup triggers"
           (.volInvalid "bad trigger")]) :=
  ⟨rfl, rfl, rfl, by
    have h := (C7_section_failure_logged_and_stops envTrigFail vcC7 acC7 "nm"
      false (.str "bad") rfl).1 (.volInvalid "bad trigger") rfl rfl
    exact h⟩
end AutomationConfigModel
